import Mathlib

/-!
# Verification of the cache-rocket launch/cleanup orchestration

Shallow embedding of `src/launch-server.ts` and `src/cleanup-server.ts`
(the latter's implementation is included alongside its test file).
External effects (CI inputs, port allocation, random bytes, spawning,
readiness polling, state store, filesystem, signals) are modelled as an
explicit world record; each phase is a pure function from the world to
the record of effects it performs (exported variables, info/debug lines,
saved state, failure signal).
-/

namespace CacheRocket

/-! ## Hex encoding of random bytes (`randomBytes(32).toString('hex')`) -/

/-- One lowercase hexadecimal digit for a value below 16. -/
def hexDigit (n : Nat) : Char :=
  if n < 10 then Char.ofNat (48 + n) else Char.ofNat (87 + n)

/-- Two lowercase hex characters encoding one byte. -/
def byteHex (b : Nat) : List Char :=
  [hexDigit (b / 16), hexDigit (b % 16)]

/-- Embeds `Buffer.toString('hex')`: hex-encode a byte list. -/
def tokenHex (bytes : List Nat) : String :=
  String.mk (bytes.flatMap byteHex)

/-- The sixteen characters a lowercase hex string is made of. -/
def isLowerHex (c : Char) : Prop :=
  c ∈ ("0123456789abcdef".data)

instance (c : Char) : Decidable (isLowerHex c) := by
  unfold isLowerHex; infer_instance

/-! ## The ServerEnvironment and the zod schema -/

/-- The validated environment passed to the child process
(`ServerEnvSchema`'s output type): `PORT` and `TURBO_TOKEN` required,
storage fields optional. -/
structure ServerEnv where
  PORT : String
  TURBO_TOKEN : String
  STORAGE_PROVIDER : Option String
  STORAGE_PATH : Option String
deriving DecidableEq, Repr

/-- An untyped candidate environment, as zod sees its input: every key
may be absent. -/
structure RawEnv where
  PORT : Option String
  TURBO_TOKEN : Option String
  STORAGE_PROVIDER : Option String
  STORAGE_PATH : Option String
deriving DecidableEq, Repr

/-- Embeds `ServerEnvSchema.parse`: succeeds exactly when the required string
keys `PORT` and `TURBO_TOKEN` are present; optional keys pass through
independently. -/
def serverEnvSchemaParse (r : RawEnv) : Except String ServerEnv :=
  match r.PORT, r.TURBO_TOKEN with
  | some p, some t =>
      Except.ok ⟨p, t, r.STORAGE_PROVIDER, r.STORAGE_PATH⟩
  | _, _ => Except.error "invalid server environment"

/-- View a typed `ServerEnv` value as the raw key set it carries (the
object literal built at `launch-server.ts:37`, where spreading a falsy
conjunct omits the key). -/
def rawOfServerEnv (e : ServerEnv) : RawEnv :=
  ⟨some e.PORT, some e.TURBO_TOKEN, e.STORAGE_PROVIDER, e.STORAGE_PATH⟩

/-- The child environment `{...process.env, ...validatedEnv}`: the
validated keys overlaid on the ambient environment. -/
def childEnv (ambient : String → Option String) (e : ServerEnv)
    (k : String) : Option String :=
  if k = "PORT" then some e.PORT
  else if k = "TURBO_TOKEN" then some e.TURBO_TOKEN
  else if k = "STORAGE_PROVIDER" then
    match e.STORAGE_PROVIDER with
    | some v => some v
    | none => ambient k
  else if k = "STORAGE_PATH" then
    match e.STORAGE_PATH with
    | some v => some v
    | none => ambient k
  else ambient k

/-! ## The launch phase (`startCacheServer`) -/

/-- The spawned child process handle: only its (possibly absent) pid is
consulted. -/
structure Spawned where
  pid : Option Nat
deriving DecidableEq, Repr

/-- Everything external that a run of `startCacheServer` consumes:
the outcome of each fallible step and the four CI inputs (an absent CI
input reads as the empty string). -/
structure LaunchWorld where
  mkdirResult : Except String Unit
  portResult : Except String Nat
  tokenBytes : List Nat
  storageProviderInput : String
  storagePathInput : String
  teamIdInput : String
  hostInput : String
  spawnResult : Except String Spawned
  waitPortResult : Except String Bool
deriving Repr

/-- The observable effects of one run of the launch phase, in program
order within each channel. -/
structure LaunchEffects where
  exported : List (String × String)
  infos : List String
  savedState : List (String × String)
  spawnEnv : Option ServerEnv
  failed : Option String
deriving DecidableEq, Repr

/-- The body of the `try` block of `startCacheServer`
(`launch-server.ts:19-88`): effects accumulated so far paired with
normal or exceptional termination. -/
def runLaunch (w : LaunchWorld) : LaunchEffects × Except String Unit :=
  match w.mkdirResult with
  | Except.error m => (⟨[], [], [], none, none⟩, Except.error m)
  | Except.ok _ =>
  match w.portResult with
  | Except.error m => (⟨[], [], [], none, none⟩, Except.error m)
  | Except.ok port =>
  let token := tokenHex w.tokenBytes
  let storageProvider := w.storageProviderInput
  let storagePath := w.storagePathInput
  let teamId := if w.teamIdInput = "" then "ci" else w.teamIdInput
  let host := if w.hostInput = "" then "http://127.0.0.1" else w.hostInput
  let turboApi := host ++ ":" ++ toString port
  let exported := [("TURBO_API", turboApi), ("TURBO_TOKEN", token),
    ("TURBO_TEAM", teamId)]
  let serverEnvData : ServerEnv :=
    ⟨toString port, token,
     if storageProvider = "" then none else some storageProvider,
     if storagePath = "" then none else some storagePath⟩
  match serverEnvSchemaParse (rawOfServerEnv serverEnvData) with
  | Except.error m => (⟨exported, [], [], none, none⟩, Except.error m)
  | Except.ok validatedEnv =>
  match w.spawnResult with
  | Except.error m => (⟨exported, [], [], some validatedEnv, none⟩,
      Except.error m)
  | Except.ok proc =>
  match w.waitPortResult with
  | Except.error m => (⟨exported, [], [], some validatedEnv, none⟩,
      Except.error m)
  | Except.ok isOpen =>
  if isOpen then
    let pidText := match proc.pid with
      | some n => toString n
      | none => "undefined"
    let infos := ["✅ Turborepo Remote Cache Server started",
      "   PID: " ++ pidText,
      "   Port: " ++ toString port,
      "   API: " ++ turboApi,
      "   Team: " ++ teamId]
      ++ (if storageProvider = "" then []
          else ["   Storage Provider: " ++ storageProvider])
      ++ (if storagePath = "" then []
          else ["   Storage Path: " ++ storagePath])
    let saved := [("serverPid",
        match proc.pid with
        | some n => toString n
        | none => ""),
      ("serverPort", toString port)]
    (⟨exported, infos, saved, some validatedEnv, none⟩, Except.ok ())
  else
    (⟨exported, [], [], some validatedEnv, none⟩,
     Except.error ("Port " ++ toString port ++
       " did not open within 30 seconds"))

/-- Embeds `startCacheServer` (`launch-server.ts:18-93`): run the body and
catch any exception, converting it into a single `setFailed` message. -/
def startCacheServer (w : LaunchWorld) : LaunchEffects :=
  match runLaunch w with
  | (eff, Except.ok _) => eff
  | (eff, Except.error m) =>
      let msg := "Failed to start Turborepo Remote Cache Server: " ++ m
      { eff with failed := some msg }

/-! ## String helpers used by the cleanup phase -/

/-- The whitespace characters `String.prototype.trim` strips (the ones
relevant to log content). -/
def isJsWs (c : Char) : Bool :=
  c == ' ' || c == '\t' || c == '\n' || c == '\r' ||
  c == '\x0b' || c == '\x0c'

/-- Embeds `s.trim()` on the character list of a string. -/
def jsTrim (l : List Char) : List Char :=
  ((l.dropWhile isJsWs).reverse.dropWhile isJsWs).reverse

/-- Embeds `s.split('\n')` on a character list: the segments between newline
characters, empty segments preserved, always at least one segment. -/
def splitNl : List Char → List (List Char)
  | [] => [[]]
  | c :: cs =>
    if c = '\n' then [] :: splitNl cs
    else
      match splitNl cs with
      | [] => [[c]]
      | l :: ls => (c :: l) :: ls

/-- Embeds `parts.join('\n')` on character lists. -/
def joinNl : List (List Char) → List Char
  | [] => []
  | [l] => l
  | l :: ls => l ++ '\n' :: joinNl ls

/-- Embeds `parseInt(s)` (base 10): skip leading whitespace, optional sign,
then the longest run of decimal digits; `none` models `NaN`. -/
def jsParseInt (s : String) : Option Int :=
  let l := s.data.dropWhile isJsWs
  let (neg, rest) :=
    match l with
    | '-' :: r => (true, r)
    | '+' :: r => (false, r)
    | r => (false, r)
  let digits := rest.takeWhile Char.isDigit
  if digits = [] then none
  else
    let n : Nat := digits.foldl (fun acc c => acc * 10 + (c.toNat - 48)) 0
    some (if neg then -(n : Int) else (n : Int))

/-- The displayed form of a log file's content
(`cleanup-server.ts`, `displayLogFile`): split into lines on newline,
prefix each line with two spaces, rejoin with newlines. -/
def indentedContent (c : String) : String :=
  String.mk (joinNl ((splitNl c.data).map (fun l => ' ' :: ' ' :: l)))

/-! ## The cleanup phase (`cleanupCacheServer`) -/

/-- Everything external that a run of `cleanupCacheServer` consumes:
the persisted `serverPid` read (which may itself throw), the outcome of
delivering `SIGTERM`, and the outcome of reading each log file. -/
structure CleanupWorld where
  getStateResult : Except String String
  killResult : Except String Unit
  logRead : String → Except String String

/-- The observable effects of one run of the cleanup phase. `killed`
records the one `process.kill` invocation (pid as parsed, signal name)
when it happens; `readAttempts` records each log file whose read was
attempted, in order. -/
structure CleanupEffects where
  infos : List String
  debugs : List String
  groups : List String
  endGroups : Nat
  killed : Option (Option Int × String)
  readAttempts : List String
  failed : Option String
deriving DecidableEq, Repr

/-- Sequencing of two effect records: channels concatenate, the kill
record and the failure signal come from whichever part produced them. -/
def CleanupEffects.seq (a b : CleanupEffects) : CleanupEffects :=
  ⟨a.infos ++ b.infos, a.debugs ++ b.debugs, a.groups ++ b.groups,
   a.endGroups + b.endGroups, a.killed <|> b.killed,
   a.readAttempts ++ b.readAttempts, a.failed <|> b.failed⟩

/-- The empty effect record. -/
def CleanupEffects.none : CleanupEffects :=
  ⟨[], [], [], 0, Option.none, [], Option.none⟩

/-- Embeds `stopServer(serverPid)`: deliver `SIGTERM` to `parseInt(serverPid)`;
its own try/catch turns a delivery error into an informational line. -/
def stopServerEff (serverPid : String) (killResult : Except String Unit) :
    CleanupEffects :=
  match killResult with
  | Except.ok _ =>
      ⟨["✅ Turborepo Remote Cache Server stopped (PID: " ++ serverPid
          ++ ")"],
       [], [], 0, some (jsParseInt serverPid, "SIGTERM"), [], none⟩
  | Except.error m =>
      ⟨["❌ Failed to stop server process " ++ serverPid ++ ": " ++ m],
       [], [], 0, some (jsParseInt serverPid, "SIGTERM"), [], none⟩

/-- Embeds `displayLogFile(logFile)`: read the file; on success display the
indented content in a group when the trimmed content is non-empty; a
read error becomes a debug line. -/
def displayLogFileEff (logFile : String)
    (readResult : Except String String) : CleanupEffects :=
  match readResult with
  | Except.ok logContent =>
      if jsTrim logContent.data ≠ [] then
        ⟨[indentedContent logContent], [], ["📋 " ++ logFile], 1, none,
         [logFile], none⟩
      else
        ⟨[], [], [], 0, none, [logFile], none⟩
  | Except.error m =>
      ⟨[], ["Could not read log file " ++ logFile ++ ": " ++ m],
       [], 0, none, [logFile], none⟩

/-- The two well-known log files read by `displayLogs()`. -/
def logFiles : List String :=
  ["logs/turborepo-remote-cache.log",
   "logs/turborepo-remote-cache-error.log"]

/-- Embeds `displayLogs()`: process both log files (each with its own
try/catch, so neither affects the other). -/
def displayLogsEff (logRead : String → Except String String) :
    CleanupEffects :=
  (displayLogFileEff "logs/turborepo-remote-cache.log"
    (logRead "logs/turborepo-remote-cache.log")).seq
  (displayLogFileEff "logs/turborepo-remote-cache-error.log"
    (logRead "logs/turborepo-remote-cache-error.log"))

/-- Embeds `cleanupCacheServer` (`cleanup-server.ts`): read `serverPid`; when
empty report that no server was started; otherwise stop the server and
display the logs; any exception escaping to the top level becomes one
`setFailed` message. -/
def cleanupCacheServer (w : CleanupWorld) : CleanupEffects :=
  match w.getStateResult with
  | Except.error m =>
      let msg := "Error in post action: " ++ m
      ⟨[], [], [], 0, none, [], some msg⟩
  | Except.ok serverPid =>
      if serverPid = "" then
        ⟨["❌ Turborepo Remote Cache Server was not started or PID not found"],
         [], [], 0, none, [], none⟩
      else
        (stopServerEff serverPid w.killResult).seq
          (displayLogsEff w.logRead)

/-! ## Helper lemmas -/

/-- Every branch of the launch body leaves the failure channel empty:
only the top-level catch writes to it. -/
theorem runLaunch_fst_failed (w : LaunchWorld) :
    (runLaunch w).1.failed = Option.none := by
  rcases w with ⟨mk, pr, tb, sp, spp, ti, ho, spr, wpr⟩
  cases mk with
  | error m => rfl
  | ok u =>
    cases pr with
    | error m => rfl
    | ok p =>
      cases spr with
      | error m => rfl
      | ok proc =>
        cases wpr with
        | error m => rfl
        | ok b => cases b <;> rfl

/-- Two list appends differ when the left parts disagree at an index
inside both. -/
theorem ne_append_of_getElem {α : Type} (p q a b : List α) (i : Nat)
    (hip : i < p.length) (hiq : i < q.length) (hne : p[i]? ≠ q[i]?) :
    p ++ a ≠ q ++ b := by
  intro h
  apply hne
  have h1 : (p ++ a)[i]? = p[i]? := List.getElem?_append_left hip
  have h2 : (q ++ b)[i]? = q[i]? := List.getElem?_append_left hiq
  rw [← h1, ← h2, h]

/-- Two string appends differ when the left parts disagree at an index
inside both. -/
theorem str_append_ne (p q a b : String) (i : Nat)
    (hip : i < p.data.length) (hiq : i < q.data.length)
    (hne : p.data[i]? ≠ q.data[i]?) : p ++ a ≠ q ++ b := by
  intro h
  have hd : p.data ++ a.data = q.data ++ b.data := by
    rw [← String.data_append, ← String.data_append, h]
  exact ne_append_of_getElem p.data q.data a.data b.data i hip hiq hne hd

/-- A string append differs from a plain string when they disagree at
an index inside both left parts. -/
theorem str_append_ne_lit (p a q : String) (i : Nat)
    (hip : i < p.data.length) (hiq : i < q.data.length)
    (hne : p.data[i]? ≠ q.data[i]?) : p ++ a ≠ q := by
  intro h
  exact str_append_ne p q a "" i hip hiq hne (by rw [h, String.append_empty])

/-! ## Claim theorems: launch phase -/

/-- C9. The zod validation of the constructed server environment never
fails: a `ServerEnv` built with `PORT` and `TURBO_TOKEN` present (as
`startCacheServer` always builds it) parses back to itself, so the
validation-failure branch of the launch body is unreachable. -/
theorem serverEnvSchemaParse_never_fails (e : ServerEnv) :
    serverEnvSchemaParse (rawOfServerEnv e) = Except.ok e := rfl

/-- C3. On every run of the launch phase in which a port `p` was
allocated, the published variables are exactly `TURBO_API = {host}:{p}`
(host defaulting to `http://127.0.0.1` when the input is empty),
`TURBO_TOKEN` the generated token, and `TURBO_TEAM` the team-id input
(defaulting to `ci` when empty), with no added whitespace or trailing
slash. -/
theorem startCacheServer_publishes_api_and_team (tb : List Nat)
    (sp spp ti ho : String) (p : Nat) (spr : Except String Spawned)
    (wpr : Except String Bool) :
    (startCacheServer
        ⟨Except.ok (), Except.ok p, tb, sp, spp, ti, ho, spr, wpr⟩).exported =
      [("TURBO_API",
          (if ho = "" then "http://127.0.0.1" else ho) ++ ":" ++ toString p),
       ("TURBO_TOKEN", tokenHex tb),
       ("TURBO_TEAM", if ti = "" then "ci" else ti)] := by
  cases spr with
  | error m => rfl
  | ok proc =>
    cases wpr with
    | error m => rfl
    | ok b => cases b <;> rfl

/-- C4. On every successful launch (the spawn succeeded and readiness
was confirmed), the persisted handoff state is exactly `serverPid` =
the decimal string of the child's pid (empty string when the child has
no pid) followed by `serverPort` = the decimal string of the allocated
port. -/
theorem startCacheServer_success_saves_state (tb : List Nat)
    (sp spp ti ho : String) (p : Nat) (pid : Option Nat) :
    (startCacheServer
        ⟨Except.ok (), Except.ok p, tb, sp, spp, ti, ho,
         Except.ok ⟨pid⟩, Except.ok true⟩).savedState =
      [("serverPid",
          match pid with
          | some n => toString n
          | none => ""),
       ("serverPort", toString p)] := rfl

/-- C1. When readiness polling reports the port still closed after the
timeout, the launch phase fails with a message containing the literal
port number and "did not open within 30 seconds", and persists no
handoff state in that run. -/
theorem startCacheServer_timeout_no_handoff (tb : List Nat)
    (sp spp ti ho : String) (p : Nat) (proc : Spawned) :
    ∃ m, (startCacheServer
        ⟨Except.ok (), Except.ok p, tb, sp, spp, ti, ho,
         Except.ok proc, Except.ok false⟩).failed = some m ∧
      (toString p).data <:+: m.data ∧
      "did not open within 30 seconds".data <:+: m.data ∧
      (startCacheServer
        ⟨Except.ok (), Except.ok p, tb, sp, spp, ti, ho,
         Except.ok proc, Except.ok false⟩).savedState = [] := by
  have h1 : "Failed to start Turborepo Remote Cache Server: ".data ++
      "Port ".data = "Failed to start Turborepo Remote Cache Server: Port ".data := by
    decide
  have h2 : " did not open within 30 seconds".data =
      ' ' :: "did not open within 30 seconds".data := by decide
  refine ⟨"Failed to start Turborepo Remote Cache Server: " ++
    ("Port " ++ toString p ++ " did not open within 30 seconds"),
    rfl, ?_, ?_, rfl⟩
  · refine ⟨"Failed to start Turborepo Remote Cache Server: Port ".data,
      " did not open within 30 seconds".data, ?_⟩
    rw [← h1, String.data_append, String.data_append, String.data_append]
    simp [List.append_assoc]
  · refine ⟨"Failed to start Turborepo Remote Cache Server: Port ".data ++
      (toString p).data ++ [' '], [], ?_⟩
    rw [← h1, String.data_append, String.data_append, String.data_append, h2]
    simp [List.append_assoc]

/-- C2. No exception raised inside the launch body propagates: whenever
the body terminates normally no failure is signalled, and whenever it
raises an exception with message `m` the phase signals exactly one
failure whose message is `m` prefixed by
"Failed to start Turborepo Remote Cache Server: ". -/
theorem startCacheServer_catches_all (w : LaunchWorld) :
    ((runLaunch w).2 = Except.ok () →
      (startCacheServer w).failed = Option.none) ∧
    ∀ m, (runLaunch w).2 = Except.error m →
      (startCacheServer w).failed =
        some ("Failed to start Turborepo Remote Cache Server: " ++ m) := by
  have hfst := runLaunch_fst_failed w
  unfold startCacheServer
  rcases hr : runLaunch w with ⟨eff, r⟩
  rw [hr] at hfst
  constructor
  · intro h
    simp only at h
    subst h
    exact hfst
  · intro m h
    simp only at h
    subst h
    rfl

/-- Witness for C2: a run whose body succeeds signals no failure, and a
run whose port allocation throws "No ports available" signals exactly
the prefixed failure message. -/
theorem startCacheServer_catches_all_witness :
    (startCacheServer
        ⟨Except.ok (), Except.ok 3000, List.replicate 32 0, "", "", "", "",
         Except.ok ⟨some 12345⟩, Except.ok true⟩).failed = Option.none ∧
    (startCacheServer
        ⟨Except.ok (), Except.error "No ports available",
         List.replicate 32 0, "", "", "", "",
         Except.ok ⟨some 12345⟩, Except.ok true⟩).failed =
      some ("Failed to start Turborepo Remote Cache Server: " ++
        "No ports available") :=
  ⟨(startCacheServer_catches_all
      ⟨Except.ok (), Except.ok 3000, List.replicate 32 0, "", "", "", "",
       Except.ok ⟨some 12345⟩, Except.ok true⟩).1 rfl,
   (startCacheServer_catches_all
      ⟨Except.ok (), Except.error "No ports available",
       List.replicate 32 0, "", "", "", "",
       Except.ok ⟨some 12345⟩, Except.ok true⟩).2 "No ports available" rfl⟩

/-! ## Helper lemmas for the cleanup phase -/

/-- The function `displayLogFile` never writes to the failure channel. -/
theorem displayLogFileEff_failed (f : String) (r : Except String String) :
    (displayLogFileEff f r).failed = Option.none := by
  cases r with
  | error m => rfl
  | ok c =>
    by_cases hc : jsTrim c.data = [] <;> simp [displayLogFileEff, hc]

/-- The function `displayLogFile` never delivers a signal. -/
theorem displayLogFileEff_killed (f : String) (r : Except String String) :
    (displayLogFileEff f r).killed = Option.none := by
  cases r with
  | error m => rfl
  | ok c =>
    by_cases hc : jsTrim c.data = [] <;> simp [displayLogFileEff, hc]

/-- The function `displayLogFile` attempts to read exactly its file. -/
theorem displayLogFileEff_readAttempts (f : String)
    (r : Except String String) :
    (displayLogFileEff f r).readAttempts = [f] := by
  cases r with
  | error m => rfl
  | ok c =>
    by_cases hc : jsTrim c.data = [] <;> simp [displayLogFileEff, hc]

/-! ## Claim theorems: cleanup phase -/

/-- C5. When the persisted `serverPid` is unset or empty, cleanup never
invokes process termination, reports informationally that the server
was not started, and does not mark the phase failed. -/
theorem cleanup_empty_pid_no_kill (kr : Except String Unit)
    (lr : String → Except String String) :
    (cleanupCacheServer ⟨Except.ok "", kr, lr⟩).killed = Option.none ∧
    "❌ Turborepo Remote Cache Server was not started or PID not found" ∈
      (cleanupCacheServer ⟨Except.ok "", kr, lr⟩).infos ∧
    (cleanupCacheServer ⟨Except.ok "", kr, lr⟩).failed = Option.none := by
  refine ⟨rfl, ?_, rfl⟩
  show _ ∈ [_]
  simp

/-- C6. When the persisted `serverPid` is non-empty and delivering the
termination signal throws with message `m`, cleanup does not mark the
phase failed, reports an informational message carrying
"Failed to stop server process {pid}: {m}", and still proceeds to read
both log files. -/
theorem cleanup_kill_failure_graceful (pid m : String)
    (lr : String → Except String String) (h : pid ≠ "") :
    (cleanupCacheServer
        ⟨Except.ok pid, Except.error m, lr⟩).failed = Option.none ∧
    (∃ msg, msg ∈ (cleanupCacheServer
        ⟨Except.ok pid, Except.error m, lr⟩).infos ∧
      ("Failed to stop server process " ++ pid ++ ": " ++ m).data <:+:
        msg.data) ∧
    (cleanupCacheServer
        ⟨Except.ok pid, Except.error m, lr⟩).readAttempts = logFiles := by
  have hred : cleanupCacheServer ⟨Except.ok pid, Except.error m, lr⟩ =
      (stopServerEff pid (Except.error m)).seq (displayLogsEff lr) := by
    unfold cleanupCacheServer
    simp [h]
  rw [hred]
  refine ⟨?_, ⟨"❌ Failed to stop server process " ++ pid ++ ": " ++ m,
    ?_, ?_⟩, ?_⟩
  · simp [CleanupEffects.seq, stopServerEff, displayLogsEff,
      displayLogFileEff_failed]
  · simp [CleanupEffects.seq, stopServerEff]
  · have h1 : "❌ Failed to stop server process ".data =
        ['❌', ' '] ++ "Failed to stop server process ".data := by decide
    refine ⟨['❌', ' '], [], ?_⟩
    rw [String.data_append, String.data_append, String.data_append,
      String.data_append, String.data_append, String.data_append, h1]
    simp [List.append_assoc]
  · simp [CleanupEffects.seq, stopServerEff, displayLogsEff,
      displayLogFileEff_readAttempts, logFiles]

/-- Witness for C6: pid "12345", signal delivery throwing
"Process not found". -/
theorem cleanup_kill_failure_graceful_witness :
    (cleanupCacheServer
        ⟨Except.ok "12345", Except.error "Process not found",
         fun _ => Except.ok ""⟩).failed = Option.none ∧
    (∃ msg, msg ∈ (cleanupCacheServer
        ⟨Except.ok "12345", Except.error "Process not found",
         fun _ => Except.ok ""⟩).infos ∧
      ("Failed to stop server process " ++ "12345" ++ ": " ++
        "Process not found").data <:+: msg.data) ∧
    (cleanupCacheServer
        ⟨Except.ok "12345", Except.error "Process not found",
         fun _ => Except.ok ""⟩).readAttempts = logFiles :=
  cleanup_kill_failure_graceful "12345" "Process not found"
    (fun _ => Except.ok "") (by decide)

/-! ## Split/join lemmas for the log indentation claim -/

/-- Splitting on newlines always yields at least one segment. -/
theorem splitNl_ne_nil (l : List Char) : splitNl l ≠ [] := by
  induction l with
  | nil => simp [splitNl]
  | cons c cs ih =>
    by_cases hc : c = '\n'
    · simp [splitNl, hc]
    · simp only [splitNl, if_neg hc]
      cases h : splitNl cs with
      | nil => simp
      | cons a as => simp

/-- No segment produced by splitting on newlines contains a newline. -/
theorem nl_not_mem_splitNl (l : List Char) :
    ∀ p ∈ splitNl l, '\n' ∉ p := by
  induction l with
  | nil =>
    intro p hp
    simp [splitNl] at hp
    subst hp
    simp
  | cons c cs ih =>
    intro p hp
    by_cases hc : c = '\n'
    · rw [hc] at hp
      simp only [splitNl, if_pos rfl] at hp
      rcases List.mem_cons.mp hp with rfl | hp2
      · simp
      · exact ih p hp2
    · simp only [splitNl, if_neg hc] at hp
      cases h : splitNl cs with
      | nil =>
        rw [h] at hp
        simp at hp
        subst hp
        intro hmem
        simp at hmem
        exact hc hmem.symm
      | cons a as =>
        rw [h] at hp
        rcases List.mem_cons.mp hp with rfl | hp2
        · intro hmem
          rcases List.mem_cons.mp hmem with heq | hmem2
          · exact hc heq.symm
          · exact ih a (by rw [h]; exact List.mem_cons_self a as) hmem2
        · exact ih p (by rw [h]; exact List.mem_cons_of_mem a hp2)

/-- A newline-free list splits into the single segment it is. -/
theorem splitNl_no_nl (l : List Char) (h : '\n' ∉ l) :
    splitNl l = [l] := by
  induction l with
  | nil => rfl
  | cons c cs ih =>
    have hc : ¬ (c = '\n') := fun e => h (by simp [e])
    have hcs : '\n' ∉ cs := fun m => h (by simp [m])
    simp only [splitNl, if_neg hc, ih hcs]

/-- Splitting past a newline-free head segment peels it off. -/
theorem splitNl_append_nl (l rest : List Char) (h : '\n' ∉ l) :
    splitNl (l ++ '\n' :: rest) = l :: splitNl rest := by
  induction l with
  | nil => simp [splitNl]
  | cons c cs ih =>
    have hc : ¬ (c = '\n') := fun e => h (by simp [e])
    have hcs : '\n' ∉ cs := fun m => h (by simp [m])
    simp only [List.cons_append, splitNl, if_neg hc, List.append_eq,
      ih hcs]

/-- Joining newline-free segments with newlines and splitting again is
the identity. -/
theorem splitNl_joinNl (ls : List (List Char))
    (h2 : ∀ p ∈ ls, '\n' ∉ p) (h1 : ls ≠ []) :
    splitNl (joinNl ls) = ls := by
  induction ls with
  | nil => exact absurd rfl h1
  | cons l ls ih =>
    cases ls with
    | nil =>
      simp only [joinNl]
      exact splitNl_no_nl l (h2 l (List.mem_cons_self l []))
    | cons l2 ls2 =>
      simp only [joinNl]
      rw [splitNl_append_nl l _ (h2 l (List.mem_cons_self l (l2 :: ls2)))]
      rw [ih (fun p hp => h2 p (List.mem_cons_of_mem l hp)) (by simp)]

/-- C7. When a log file's read succeeds and the trimmed content is
non-empty, the cleanup phase opens exactly one report group titled with
the file's path and displays the content with every line prefixed by
exactly two spaces, preserving line order and line content exactly. -/
theorem displayLogFile_indents (f c : String) (h : jsTrim c.data ≠ []) :
    (displayLogFileEff f (Except.ok c)).groups = ["📋 " ++ f] ∧
    (displayLogFileEff f (Except.ok c)).infos = [indentedContent c] ∧
    splitNl (indentedContent c).data =
      (splitNl c.data).map (fun l => ' ' :: ' ' :: l) := by
  refine ⟨by simp [displayLogFileEff, h], by simp [displayLogFileEff, h], ?_⟩
  have hmem : ∀ p ∈ (splitNl c.data).map (fun l => ' ' :: ' ' :: l),
      '\n' ∉ p := by
    intro p hp
    rcases List.mem_map.mp hp with ⟨q, hq, rfl⟩
    intro hmem
    rcases List.mem_cons.mp hmem with h1 | h1
    · exact absurd h1 (by decide)
    rcases List.mem_cons.mp h1 with hh | hh
    · exact absurd hh (by decide)
    · exact nl_not_mem_splitNl c.data q hq hh
  have hne : (splitNl c.data).map (fun l => ' ' :: ' ' :: l) ≠ [] := by
    simp only [ne_eq, List.map_eq_nil_iff]
    exact splitNl_ne_nil c.data
  calc splitNl (indentedContent c).data
      = splitNl (joinNl ((splitNl c.data).map (fun l => ' ' :: ' ' :: l)))
        := rfl
    _ = (splitNl c.data).map (fun l => ' ' :: ' ' :: l)
        := splitNl_joinNl _ hmem hne

/-- Witness for C7: content "Line 1\nLine 2\nLine 3" is displayed as
exactly "  Line 1\n  Line 2\n  Line 3" inside a group titled with the
file path. -/
theorem displayLogFile_indents_witness :
    jsTrim ("Line 1\nLine 2\nLine 3".data) ≠ [] ∧
    (displayLogFileEff "logs/turborepo-remote-cache.log"
        (Except.ok "Line 1\nLine 2\nLine 3")).infos =
      ["  Line 1\n  Line 2\n  Line 3"] ∧
    (displayLogFileEff "logs/turborepo-remote-cache.log"
        (Except.ok "Line 1\nLine 2\nLine 3")).groups =
      ["📋 logs/turborepo-remote-cache.log"] := by
  refine ⟨by decide, ?_, ?_⟩
  · have h := (displayLogFile_indents "logs/turborepo-remote-cache.log"
      "Line 1\nLine 2\nLine 3" (by decide)).2.1
    rw [h]
    decide
  · have h := (displayLogFile_indents "logs/turborepo-remote-cache.log"
      "Line 1\nLine 2\nLine 3" (by decide)).1
    rw [h]
    decide

/-! ## Token format lemmas -/

/-- Hex encoding yields two characters per byte. -/
theorem length_flatMap_byteHex (bytes : List Nat) :
    (bytes.flatMap byteHex).length = 2 * bytes.length := by
  induction bytes with
  | nil => rfl
  | cons b t ih =>
    rw [List.flatMap_cons, List.length_append, ih]
    simp [byteHex]
    omega

/-- Each hex digit of a value below 16 is a lowercase hex character. -/
theorem hexDigit_lowerHex : ∀ n, n < 16 → isLowerHex (hexDigit n) := by
  decide

/-- Both hex characters of a byte are lowercase hex characters. -/
theorem byteHex_lowerHex (b : Nat) (hb : b < 256) :
    ∀ c ∈ byteHex b, isLowerHex c := by
  intro c hc
  have h1 : b / 16 < 16 := by omega
  have h2 : b % 16 < 16 := by omega
  rcases List.mem_cons.mp hc with rfl | hc2
  · exact hexDigit_lowerHex _ h1
  rcases List.mem_cons.mp hc2 with rfl | hc3
  · exact hexDigit_lowerHex _ h2
  · simp at hc3

/-- On every run past port allocation, the exported variables are the
three-element list built at `launch-server.ts:33-35`. -/
theorem startCacheServer_exported_eq (tb : List Nat)
    (sp spp ti ho : String) (p : Nat) (spr : Except String Spawned)
    (wpr : Except String Bool) :
    (startCacheServer
        ⟨Except.ok (), Except.ok p, tb, sp, spp, ti, ho, spr, wpr⟩).exported =
      [("TURBO_API",
          (if ho = "" then "http://127.0.0.1" else ho) ++ ":" ++ toString p),
       ("TURBO_TOKEN", tokenHex tb),
       ("TURBO_TEAM", if ti = "" then "ci" else ti)] := by
  cases spr with
  | error m => rfl
  | ok proc =>
    cases wpr with
    | error m => rfl
    | ok b => cases b <;> rfl

/-- C8. On every run of the launch phase, the generated token — the hex
encoding of the 32 bytes drawn from the random source — is exported as
`TURBO_TOKEN` and is exactly 64 lowercase hexadecimal characters. -/
theorem token_is_64_lowercase_hex (tb : List Nat) (sp spp ti ho : String)
    (p : Nat) (spr : Except String Spawned) (wpr : Except String Bool)
    (hlen : tb.length = 32) (hb : ∀ b ∈ tb, b < 256) :
    ("TURBO_TOKEN", tokenHex tb) ∈
      (startCacheServer ⟨Except.ok (), Except.ok p, tb, sp, spp, ti, ho,
        spr, wpr⟩).exported ∧
    (tokenHex tb).length = 64 ∧
    ∀ c ∈ (tokenHex tb).data, isLowerHex c := by
  refine ⟨?_, ?_, ?_⟩
  · rw [startCacheServer_exported_eq]
    simp
  · have he : (tokenHex tb).length = (tb.flatMap byteHex).length := rfl
    rw [he, length_flatMap_byteHex, hlen]
  · intro c hc
    have hm : c ∈ tb.flatMap byteHex := hc
    rcases List.mem_flatMap.mp hm with ⟨b, hbm, hcb⟩
    exact byteHex_lowerHex b (hb b hbm) c hcb

/-- Witness for C8 at 32 zero bytes: the length hypotheses hold and the
token has 64 characters. -/
theorem token_is_64_lowercase_hex_witness :
    (List.replicate 32 0).length = 32 ∧
    (∀ b ∈ List.replicate 32 0, b < 256) ∧
    (tokenHex (List.replicate 32 0)).length = 64 :=
  ⟨by decide, by decide,
   (token_is_64_lowercase_hex (List.replicate 32 0) "" "" "" "" 3000
      (Except.ok ⟨some 12345⟩) (Except.ok true) (by decide)
      (by decide)).2.1⟩

/-! ## Storage-field optionality lemmas -/

/-- On a fully successful run, the environment handed to `spawn` is the
validated `ServerEnv` built from port, token, and the storage inputs
(an empty storage input omits its key). -/
theorem startCacheServer_success_spawnEnv (tb : List Nat)
    (sp spp ti ho : String) (p : Nat) (pid : Option Nat) :
    (startCacheServer
        ⟨Except.ok (), Except.ok p, tb, sp, spp, ti, ho,
         Except.ok ⟨pid⟩, Except.ok true⟩).spawnEnv =
      some ⟨toString p, tokenHex tb,
        if sp = "" then none else some sp,
        if spp = "" then none else some spp⟩ := rfl

/-- On a fully successful run, the status report lines are the five
base lines followed by the storage lines for the non-empty storage
inputs. -/
theorem startCacheServer_success_infos (tb : List Nat)
    (sp spp ti ho : String) (p : Nat) (pid : Option Nat) :
    (startCacheServer
        ⟨Except.ok (), Except.ok p, tb, sp, spp, ti, ho,
         Except.ok ⟨pid⟩, Except.ok true⟩).infos =
      ["✅ Turborepo Remote Cache Server started",
       "   PID: " ++ (match pid with
         | some n => toString n
         | none => "undefined"),
       "   Port: " ++ toString p,
       "   API: " ++ ((if ho = "" then "http://127.0.0.1" else ho) ++ ":"
         ++ toString p),
       "   Team: " ++ (if ti = "" then "ci" else ti)]
      ++ (if sp = "" then [] else ["   Storage Provider: " ++ sp])
      ++ (if spp = "" then [] else ["   Storage Path: " ++ spp]) := rfl

/-- Looking up `STORAGE_PROVIDER` in the merged child environment. -/
theorem childEnv_storage_provider (amb : String → Option String)
    (e : ServerEnv) :
    childEnv amb e "STORAGE_PROVIDER" =
      (match e.STORAGE_PROVIDER with
       | some v => some v
       | Option.none => amb "STORAGE_PROVIDER") := rfl

/-- Looking up `STORAGE_PATH` in the merged child environment. -/
theorem childEnv_storage_path (amb : String → Option String)
    (e : ServerEnv) :
    childEnv amb e "STORAGE_PATH" =
      (match e.STORAGE_PATH with
       | some v => some v
       | Option.none => amb "STORAGE_PATH") := rfl

/-- The storage-provider report line differs from every other line of
the readiness report, whatever the run's parameters. -/
theorem provider_line_ne (x : String) :
    (∀ y : String, "   Storage Provider: " ++ x ≠ "   PID: " ++ y) ∧
    (∀ y : String, "   Storage Provider: " ++ x ≠ "   Port: " ++ y) ∧
    (∀ y : String, "   Storage Provider: " ++ x ≠ "   API: " ++ y) ∧
    (∀ y : String, "   Storage Provider: " ++ x ≠ "   Team: " ++ y) ∧
    (∀ y : String, "   Storage Provider: " ++ x ≠
      "   Storage Path: " ++ y) ∧
    "   Storage Provider: " ++ x ≠
      "✅ Turborepo Remote Cache Server started" :=
  ⟨fun y => str_append_ne _ _ x y 3 (by decide) (by decide) (by decide),
   fun y => str_append_ne _ _ x y 3 (by decide) (by decide) (by decide),
   fun y => str_append_ne _ _ x y 3 (by decide) (by decide) (by decide),
   fun y => str_append_ne _ _ x y 3 (by decide) (by decide) (by decide),
   fun y => str_append_ne _ _ x y 12 (by decide) (by decide) (by decide),
   str_append_ne_lit _ x _ 0 (by decide) (by decide) (by decide)⟩

/-- The storage-path report line differs from every other line of the
readiness report, whatever the run's parameters. -/
theorem path_line_ne (x : String) :
    (∀ y : String, "   Storage Path: " ++ x ≠ "   PID: " ++ y) ∧
    (∀ y : String, "   Storage Path: " ++ x ≠ "   Port: " ++ y) ∧
    (∀ y : String, "   Storage Path: " ++ x ≠ "   API: " ++ y) ∧
    (∀ y : String, "   Storage Path: " ++ x ≠ "   Team: " ++ y) ∧
    (∀ y : String, "   Storage Path: " ++ x ≠
      "   Storage Provider: " ++ y) ∧
    "   Storage Path: " ++ x ≠
      "✅ Turborepo Remote Cache Server started" :=
  ⟨fun y => str_append_ne _ _ x y 3 (by decide) (by decide) (by decide),
   fun y => str_append_ne _ _ x y 4 (by decide) (by decide) (by decide),
   fun y => str_append_ne _ _ x y 3 (by decide) (by decide) (by decide),
   fun y => str_append_ne _ _ x y 3 (by decide) (by decide) (by decide),
   fun y => str_append_ne _ _ x y 12 (by decide) (by decide) (by decide),
   str_append_ne_lit _ x _ 0 (by decide) (by decide) (by decide)⟩

/-- C10. On every successful run, `STORAGE_PROVIDER` is a key of the
environment the child is spawned with iff the storage-provider input is
non-empty, and likewise `STORAGE_PATH` for the storage-path input; the
same holds for the storage lines of the readiness report: an empty
input behaves exactly as an absent one. -/
theorem storage_inputs_empty_behaves_as_absent (tb : List Nat)
    (sp spp ti ho : String) (p : Nat) (pid : Option Nat) :
    ∃ env, (startCacheServer ⟨Except.ok (), Except.ok p, tb, sp, spp, ti,
        ho, Except.ok ⟨pid⟩, Except.ok true⟩).spawnEnv = some env ∧
      (env.STORAGE_PROVIDER.isSome ↔ sp ≠ "") ∧
      (env.STORAGE_PATH.isSome ↔ spp ≠ "") ∧
      (∀ amb : String → Option String,
        amb "STORAGE_PROVIDER" = Option.none →
        ((childEnv amb env "STORAGE_PROVIDER").isSome ↔ sp ≠ "")) ∧
      (∀ amb : String → Option String,
        amb "STORAGE_PATH" = Option.none →
        ((childEnv amb env "STORAGE_PATH").isSome ↔ spp ≠ "")) ∧
      (("   Storage Provider: " ++ sp) ∈ (startCacheServer ⟨Except.ok (),
          Except.ok p, tb, sp, spp, ti, ho, Except.ok ⟨pid⟩,
          Except.ok true⟩).infos ↔ sp ≠ "") ∧
      (("   Storage Path: " ++ spp) ∈ (startCacheServer ⟨Except.ok (),
          Except.ok p, tb, sp, spp, ti, ho, Except.ok ⟨pid⟩,
          Except.ok true⟩).infos ↔ spp ≠ "") := by
  refine ⟨⟨toString p, tokenHex tb,
      if sp = "" then none else some sp,
      if spp = "" then none else some spp⟩,
    startCacheServer_success_spawnEnv tb sp spp ti ho p pid,
    ?_, ?_, ?_, ?_, ?_, ?_⟩
  · by_cases hsp : sp = "" <;> simp [hsp]
  · by_cases hspp : spp = "" <;> simp [hspp]
  · intro amb hamb
    rw [childEnv_storage_provider]
    by_cases hsp : sp = "" <;> simp [hsp, hamb]
  · intro amb hamb
    rw [childEnv_storage_path]
    by_cases hspp : spp = "" <;> simp [hspp, hamb]
  · rw [startCacheServer_success_infos]
    obtain ⟨n1, n2, n3, n4, n5, n6⟩ := provider_line_ne sp
    constructor
    · intro hmem hsp
      rw [if_pos hsp] at hmem
      simp only [List.append_nil] at hmem
      rcases List.mem_append.mp hmem with h | h
      · simp only [List.mem_cons, List.not_mem_nil, or_false] at h
        rcases h with h | h | h | h | h
        · exact n6 h
        · exact n1 _ h
        · exact n2 _ h
        · exact n3 _ h
        · exact n4 _ h
      · by_cases hspp : spp = ""
        · rw [if_pos hspp] at h
          simp at h
        · rw [if_neg hspp] at h
          simp only [List.mem_singleton] at h
          exact n5 spp h
    · intro hsp
      rw [if_neg hsp]
      refine List.mem_append.mpr (Or.inl ?_)
      refine List.mem_append.mpr (Or.inr ?_)
      simp
  · rw [startCacheServer_success_infos]
    obtain ⟨m1, m2, m3, m4, m5, m6⟩ := path_line_ne spp
    constructor
    · intro hmem hspp
      rw [if_pos hspp] at hmem
      simp only [List.append_nil] at hmem
      rcases List.mem_append.mp hmem with h | h
      · simp only [List.mem_cons, List.not_mem_nil, or_false] at h
        rcases h with h | h | h | h | h
        · exact m6 h
        · exact m1 _ h
        · exact m2 _ h
        · exact m3 _ h
        · exact m4 _ h
      · by_cases hsp : sp = ""
        · rw [if_pos hsp] at h
          simp at h
        · rw [if_neg hsp] at h
          simp only [List.mem_singleton] at h
          exact m5 sp h
    · intro hspp
      rw [if_neg hspp]
      refine List.mem_append.mpr (Or.inr ?_)
      simp

/-- Witness for C10: with storage-provider "s3" the merged child
environment (over an ambient environment lacking the key) carries
`STORAGE_PROVIDER`. -/
theorem storage_inputs_empty_behaves_as_absent_witness :
    ∃ env, (startCacheServer
        ⟨Except.ok (), Except.ok 4000, List.replicate 32 0,
         "s3", "my-bucket", "production", "http://localhost",
         Except.ok ⟨some 54321⟩, Except.ok true⟩).spawnEnv = some env ∧
      ((childEnv (fun _ => Option.none) env "STORAGE_PROVIDER").isSome ↔
        ("s3" : String) ≠ "") := by
  obtain ⟨env, h1, _, _, h4, _, _, _⟩ :=
    storage_inputs_empty_behaves_as_absent (List.replicate 32 0) "s3"
      "my-bucket" "production" "http://localhost" 4000 (some 54321)
  exact ⟨env, h1, h4 (fun _ => Option.none) rfl⟩

end CacheRocket
